import Mathlib

/-!
Verification of the telegram framing state machine and connection supervisor
of `septentrio_gnss_driver` (`communication/async_manager.hpp`).

The framing state machine is embedded as an explicit step function on a
machine state: each asynchronous read continuation of the source
(`readSync<i>`, `readSbfHeader`, `readSbf`, `readStringElements`) becomes one
branch of `step`, consuming one read-completion event (error code, byte
count, bytes delivered, current time) and producing the next machine state
together with the telegrams pushed to the queue and the log calls made.
The supervisor operations `send` and `runWatchdog` are embedded separately
as action-trace functions.
-/

namespace Sep

/-- Modelled from the spec: sync-byte constant from `telegram.hpp` (not in
`src/`); common first byte of every recognized format (ASCII dollar). -/
def SYNC_BYTE_1 : Nat := 0x24

/-- Modelled from the spec: second sync byte selecting the binary (SBF)
format (`telegram.hpp` not in `src/`). -/
def SBF_SYNC_BYTE_2 : Nat := 0x40

/-- Modelled from the spec: second sync byte selecting the Text (NMEA)
format (`telegram.hpp` not in `src/`). -/
def NMEA_SYNC_BYTE_2 : Nat := 0x47

/-- Modelled from the spec: second sync byte selecting the TextInertial
(NMEA INS) format (`telegram.hpp` not in `src/`). -/
def NMEA_INS_SYNC_BYTE_2 : Nat := 0x49

/-- Modelled from the spec: second sync byte selecting the Response format
(`telegram.hpp` not in `src/`). -/
def RESPONSE_SYNC_BYTE_2 : Nat := 0x52

/-- Modelled from the spec: confirming third byte of the Text (NMEA) format
(`telegram.hpp` not in `src/`). -/
def NMEA_SYNC_BYTE_3 : Nat := 0x50

/-- Modelled from the spec: confirming third byte of the TextInertial
(NMEA INS) format (`telegram.hpp` not in `src/`). -/
def NMEA_INS_SYNC_BYTE_3 : Nat := 0x4E

/-- Modelled from the spec: first accepted confirming third byte of the
Response format (`telegram.hpp` not in `src/`). -/
def RESPONSE_SYNC_BYTE_3 : Nat := 0x3A

/-- Modelled from the spec: second accepted confirming third byte of the
Response format (`telegram.hpp` not in `src/`). -/
def RESPONSE_SYNC_BYTE_3a : Nat := 0x21

/-- Modelled from the spec: third byte that reclassifies a Response to
ErrorResponse (`telegram.hpp` not in `src/`). -/
def ERROR_SYNC_BYTE_3 : Nat := 0x3F

/-- Modelled from the spec: carriage-return byte (`telegram.hpp` not in
`src/`). -/
def CR : Nat := 0x0D

/-- Modelled from the spec: line-feed byte (`telegram.hpp` not in `src/`). -/
def LF : Nat := 0x0A

/-- Modelled from the spec: designated single-byte footer terminating
connection-descriptor frames (`telegram.hpp` not in `src/`). -/
def CONNECTION_DESCRIPTOR_FOOTER : Nat := 0x3E

/-- Modelled from the spec: fixed SBF header size in bytes (`telegram.hpp`
not in `src/`). -/
def SBF_HEADER_SIZE : Nat := 8

/-- Modelled from the spec: the hard maximum total SBF block length, a fixed
system constant (`telegram.hpp` not in `src/`; the spec fixes no numeric
value, so a representative bound below the 16-bit range is used). -/
def MAX_SBF_SIZE : Nat := 4096

/-- Modulus of the C++ `std::size_t` type (64-bit). -/
def SIZE_T_MOD : Nat := 2 ^ 64

/-- Telegram format tag, `telegram_type` in the source. `EMPTY` is the
default of a fresh Telegram; the remaining constructors are the ones
assigned in `async_manager.hpp`. -/
inductive TelegramType where
  | EMPTY
  | SBF
  | NMEA
  | NMEA_INS
  | RESPONSE
  | ERROR_RESPONSE
  | CONNECTION_DESCRIPTOR
  | UNKNOWN
deriving DecidableEq, Repr

/-- The unit of output: byte buffer, format tag, capture timestamp.
The timestamp is `none` while never assigned (the default of a fresh
`Telegram`), `some t` once `telegram_->stamp = ...` has run. -/
structure Telegram where
  message : List Nat
  ttype : TelegramType
  stamp : Option Nat
deriving DecidableEq, Repr

/-- Modelled from the spec: a fresh `Telegram` as constructed by
`new Telegram` on every resynchronization (`telegram.hpp` not in `src/`):
buffer pre-sized for the three sync bytes, default format, no timestamp. -/
def Telegram.fresh : Telegram :=
  { message := [0, 0, 0], ttype := .EMPTY, stamp := none }

/-- Which asynchronous read continuation is outstanding: `sync i` for
`readSync<i>`, `sbfHeader` for `readSbfHeader`'s read, `sbfBody len` for
`readSbf(len)`'s read, `stringElems` for `readStringElements`'s read, and
`idle` when the handler returned without scheduling any further read. -/
inductive FState where
  | sync (index : Nat)
  | sbfHeader
  | sbfBody (length : Nat)
  | stringElems
  | idle
deriving DecidableEq, Repr

/-- State of the framing machine: outstanding read plus the Telegram under
assembly. -/
structure Machine where
  fstate : FState
  telegram : Telegram
deriving DecidableEq, Repr

/-- Completion of one asynchronous read: `err` mirrors a set
`boost::system::error_code`, `numBytes` the completion's byte count,
`bytes` the bytes placed in the target buffer, `now` the value
`node_->getTime()` would return inside the handler. -/
structure ReadEvent where
  err : Bool
  numBytes : Nat
  bytes : List Nat
  now : Nat
deriving DecidableEq, Repr

/-- Severity levels of the logging interface used by the manager. -/
inductive LogLevel where
  | DEBUG
  | INFO
  | ERROR
deriving DecidableEq, Repr

/-- One tag per `node_->log` call site of the framing state machine,
carrying the data interpolated into the message. -/
inductive LogTag where
  | syncByte2Fault (b : Nat)
  | syncByte3Fault (b : Nat)
  | syncIndexFault
  | syncWrongNumBytes (n : Nat)
  | syncReadError
  | sbfHeaderTooLong (len : Nat)
  | sbfHeaderWrongNumBytes (n : Nat)
  | sbfHeaderReadError
  | sbfCrcFailed (id : Nat)
  | sbfWrongNumBytes (n : Nat)
  | sbfReadError
  | stringSync1Found
  | lfWithoutCr (msg : List Nat)
  | stringWrongNumBytes (n : Nat)
  | stringReadError
deriving DecidableEq, Repr

/-- Observable output of one handler run: telegrams pushed to the queue and
log calls made, in order. -/
structure StepOut where
  pushes : List Telegram
  logs : List (LogLevel × LogTag)
deriving DecidableEq, Repr

/-- Modelled from the spec: `parsing_utilities::getLength`
(`parsing_utilities.hpp` not in `src/`) — the 16-bit little-endian total
block length at bytes 6 and 7 of the SBF header. -/
def getLength (msg : List Nat) : Nat :=
  msg.getD 6 0 % 256 + 256 * (msg.getD 7 0 % 256)

/-- Modelled from the spec: `parsing_utilities::getId`
(`parsing_utilities.hpp` not in `src/`) — the 16-bit little-endian block
identifier at bytes 4 and 5, masked to its low 13 bits to drop the revision
sub-field. -/
def getId (msg : List Nat) : Nat :=
  (msg.getD 4 0 % 256 + 256 * (msg.getD 5 0 % 256)) % 8192

/-- C++ `std::vector::resize`: truncate or zero-extend to length `n`. -/
def resizeL (msg : List Nat) (n : Nat) : List Nat :=
  msg.take n ++ List.replicate (n - msg.length) 0

/-- Overwrite the buffer starting at offset `off` with the bytes `bs`, as an
`async_read` into `message.data() + off` does. -/
def writeBytes (msg : List Nat) (off : Nat) (bs : List Nat) : List Nat :=
  match bs with
  | [] => msg
  | b :: rest => writeBytes (msg.set off b) (off + 1) rest

/-- The machine produced by `resync()`: a fresh Telegram and the
`readSync<0>` read outstanding. -/
def resyncM : Machine := { fstate := .sync 0, telegram := Telegram.fresh }

/-- Byte count `readSbf(length)` expects: `length - SBF_HEADER_SIZE`
computed in `std::size_t` arithmetic. -/
def sbfBodyExpected (length : Nat) : Nat :=
  (length + (SIZE_T_MOD - SBF_HEADER_SIZE)) % SIZE_T_MOD

/-- Handler body of `readSync<index>` (async_manager.hpp:302-462). -/
def stepSync (index : Nat) (m : Machine) (ev : ReadEvent) : Machine × StepOut :=
  if ev.err then
    (resyncM, ⟨[], [(.DEBUG, .syncReadError)]⟩)
  else if ev.numBytes = 1 then
    let b := ev.bytes.getD 0 0
    let msg := m.telegram.message.set index b
    let tel := { m.telegram with message := msg }
    if b = SYNC_BYTE_1 then
      ({ fstate := .sync 1, telegram := { tel with stamp := some ev.now } },
       ⟨[], []⟩)
    else
      match index with
      | 0 =>
          ({ fstate := .stringElems,
             telegram := { tel with ttype := .UNKNOWN, message := resizeL msg 1 } },
           ⟨[], []⟩)
      | 1 =>
          if b = SBF_SYNC_BYTE_2 then
            ({ fstate := .sbfHeader,
               telegram := { tel with
                              ttype := .SBF,
                              message := resizeL msg SBF_HEADER_SIZE } },
             ⟨[], []⟩)
          else if b = NMEA_SYNC_BYTE_2 then
            ({ fstate := .sync 2, telegram := { tel with ttype := .NMEA } },
             ⟨[], []⟩)
          else if b = NMEA_INS_SYNC_BYTE_2 then
            ({ fstate := .sync 2, telegram := { tel with ttype := .NMEA_INS } },
             ⟨[], []⟩)
          else if b = RESPONSE_SYNC_BYTE_2 then
            ({ fstate := .sync 2, telegram := { tel with ttype := .RESPONSE } },
             ⟨[], []⟩)
          else
            (resyncM, ⟨[], [(.DEBUG, .syncByte2Fault b)]⟩)
      | 2 =>
          (if b = NMEA_SYNC_BYTE_3 then
            if tel.ttype = TelegramType.NMEA then
              ({ fstate := .stringElems,
                 telegram := { tel with message := resizeL msg 3 } }, ⟨[], []⟩)
            else (resyncM, ⟨[], []⟩)
          else if b = NMEA_INS_SYNC_BYTE_3 then
            if tel.ttype = TelegramType.NMEA_INS then
              ({ fstate := .stringElems,
                 telegram := { tel with message := resizeL msg 3 } }, ⟨[], []⟩)
            else (resyncM, ⟨[], []⟩)
          else if b = RESPONSE_SYNC_BYTE_3 then
            if tel.ttype = TelegramType.RESPONSE then
              ({ fstate := .stringElems,
                 telegram := { tel with message := resizeL msg 3 } }, ⟨[], []⟩)
            else (resyncM, ⟨[], []⟩)
          else if b = RESPONSE_SYNC_BYTE_3a then
            if tel.ttype = TelegramType.RESPONSE then
              ({ fstate := .stringElems,
                 telegram := { tel with message := resizeL msg 3 } }, ⟨[], []⟩)
            else (resyncM, ⟨[], []⟩)
          else if b = ERROR_SYNC_BYTE_3 then
            if tel.ttype = TelegramType.RESPONSE then
              let tel2 := { tel with ttype := TelegramType.ERROR_RESPONSE }
              ({ fstate := .stringElems,
                 telegram := { tel2 with message := resizeL msg 3 } }, ⟨[], []⟩)
            else (resyncM, ⟨[], []⟩)
          else
            (resyncM, ⟨[], [(.DEBUG, .syncByte3Fault b)]⟩) : Machine × StepOut)
      | _ =>
          (resyncM, ⟨[], [(.DEBUG, .syncIndexFault)]⟩)
  else
    (resyncM, ⟨[], [(.DEBUG, .syncWrongNumBytes ev.numBytes)]⟩)

/-- Handler body of `readSbfHeader` (async_manager.hpp:464-504). In the
oversized-length branch the source logs and returns without calling
`resync()` and without scheduling any further read, so the machine goes
`idle` there. -/
def stepSbfHeader (m : Machine) (ev : ReadEvent) : Machine × StepOut :=
  if ev.err then
    (resyncM, ⟨[], [(.DEBUG, .sbfHeaderReadError)]⟩)
  else if ev.numBytes = SBF_HEADER_SIZE - 2 then
    let msg := writeBytes m.telegram.message 2 (ev.bytes.take (SBF_HEADER_SIZE - 2))
    let tel := { m.telegram with message := msg }
    let length := getLength msg
    if length > MAX_SBF_SIZE then
      ({ fstate := .idle, telegram := tel },
       ⟨[], [(.DEBUG, .sbfHeaderTooLong length)]⟩)
    else
      ({ fstate := .sbfBody length,
         telegram := { tel with message := resizeL msg length } }, ⟨[], []⟩)
  else
    (resyncM, ⟨[], [(.DEBUG, .sbfHeaderWrongNumBytes ev.numBytes)]⟩)

/-- Handler body of `readSbf(length)` (async_manager.hpp:506-544),
parameterized by `crcValid`, the external `crc::isValid` (`crc.hpp` not in
`src/`). -/
def stepSbfBody (crcValid : List Nat → Bool) (length : Nat) (m : Machine)
    (ev : ReadEvent) : Machine × StepOut :=
  if ev.err then
    (resyncM, ⟨[], [(.DEBUG, .sbfReadError)]⟩)
  else if ev.numBytes = sbfBodyExpected length then
    let msg := writeBytes m.telegram.message SBF_HEADER_SIZE
      (ev.bytes.take ev.numBytes)
    let tel := { m.telegram with message := msg }
    if crcValid msg then
      (resyncM, ⟨[tel], []⟩)
    else
      (resyncM, ⟨[], [(.DEBUG, .sbfCrcFailed (getId msg))]⟩)
  else
    (resyncM, ⟨[], [(.DEBUG, .sbfWrongNumBytes ev.numBytes)]⟩)

/-- Handler body of `readStringElements` (async_manager.hpp:562-633). -/
def stepString (m : Machine) (ev : ReadEvent) : Machine × StepOut :=
  if ev.err then
    (resyncM, ⟨[], [(.DEBUG, .stringReadError)]⟩)
  else if ev.numBytes = 1 then
    let b := ev.bytes.getD 0 0
    let msg := m.telegram.message ++ [b]
    let tel := { m.telegram with message := msg }
    if b = SYNC_BYTE_1 then
      ({ fstate := .sync 1,
         telegram := { Telegram.fresh with
                        message := Telegram.fresh.message.set 0 b,
                        stamp := some ev.now } },
       ⟨[], [(.DEBUG, .stringSync1Found)]⟩)
    else if b = LF then
      if msg.getD (msg.length - 2) 0 = CR then
        (resyncM, ⟨[tel], []⟩)
      else
        (resyncM, ⟨[], [(.DEBUG, .lfWithoutCr msg)]⟩)
    else if b = CONNECTION_DESCRIPTOR_FOOTER then
      (resyncM, ⟨[{ tel with ttype := .CONNECTION_DESCRIPTOR }], []⟩)
    else
      ({ fstate := .stringElems, telegram := tel }, ⟨[], []⟩)
  else
    (resyncM, ⟨[], [(.DEBUG, .stringWrongNumBytes ev.numBytes)]⟩)

/-- One transition of the framing machine: dispatch the read-completion
event to the handler of the outstanding read. An `idle` machine has no
outstanding read, so no event changes it. -/
def step (crcValid : List Nat → Bool) (m : Machine) (ev : ReadEvent) :
    Machine × StepOut :=
  match m.fstate with
  | .sync i => stepSync i m ev
  | .sbfHeader => stepSbfHeader m ev
  | .sbfBody len => stepSbfBody crcValid len m ev
  | .stringElems => stepString m ev
  | .idle => (m, ⟨[], []⟩)

/-- Run the machine over a list of read-completion events, collecting all
pushes and logs in order. -/
def run (crcValid : List Nat → Bool) (m : Machine) :
    List ReadEvent → Machine × List Telegram × List (LogLevel × LogTag)
  | [] => (m, [], [])
  | ev :: evs =>
      let s := step crcValid m ev
      let r := run crcValid s.1 evs
      (r.1, s.2.pushes ++ r.2.1, s.2.logs ++ r.2.2)

/-- Spec-side predicate, stating the claims about the Sync2 state: which
third byte confirms which provisional format (a Response accepting its two
regular third bytes and the error third byte). -/
def confirms3 (t : TelegramType) (b : Nat) : Bool :=
  match t with
  | .NMEA => b = NMEA_SYNC_BYTE_3
  | .NMEA_INS => b = NMEA_INS_SYNC_BYTE_3
  | .RESPONSE =>
      b = RESPONSE_SYNC_BYTE_3 || b = RESPONSE_SYNC_BYTE_3a ||
        b = ERROR_SYNC_BYTE_3
  | _ => false

/-- Observable action of `AsyncManager::send` (async_manager.hpp:199-210):
either the synchronous logged rejection, or an asynchronous write posted to
the I/O service. -/
inductive SendAction where
  | logEmptyError
  | postWrite (cmd : List Nat)
deriving DecidableEq, Repr

/-- Body of `AsyncManager::send` (async_manager.hpp:199-210): an empty
command logs an error and returns without posting; otherwise the write of
the command is posted to the I/O service and `send` returns without waiting
for its completion (the trace carries the enqueue, never a completion). -/
def send (cmd : List Nat) : List SendAction :=
  if cmd.length = 0 then [.logEmptyError]
  else [.postWrite cmd]

/-- Inputs one watchdog iteration reads (async_manager.hpp:236-271):
`running` and `ioStopped` as observed after the 1-second sleep, the two
replay-mode settings flags, and whether the transport is TCP. -/
structure WatchdogCtx where
  running : Bool
  ioStopped : Bool
  readFromSbfLog : Bool
  readFromPcap : Bool
  isTcp : Bool
deriving DecidableEq, Repr

/-- Observable actions of one watchdog iteration. -/
inductive WdAction where
  | sleepOneSecond
  | logInfoFinishedFile
  | logErrorConnectionLost
  | ioServiceReset
  | joinIoThread
  | connectAttempt (success : Bool)
  | receiveRestart
  | logDebugPing
  | pingTcp
deriving DecidableEq, Repr

/-- Replay mode: either settings flag selects reading from a recorded
file. -/
def replayMode (ctx : WatchdogCtx) : Bool :=
  ctx.readFromSbfLog || ctx.readFromPcap

/-- The reconnect loop `while (!ioInterface_.connect()) sleep(1s)` of the
watchdog, given the number of failed connect attempts before the first
success: each failure is followed by a 1-second sleep, and the loop ends on
the first successful attempt. -/
def reconnectLoop : Nat → List WdAction
  | 0 => [.connectAttempt true]
  | n + 1 => .connectAttempt false :: .sleepOneSecond :: reconnectLoop n

/-- One iteration of `AsyncManager::runWatchdog`'s while-loop
(async_manager.hpp:239-270), given the observed context and the number of
connect failures the reconnect loop will see. Returns the actions performed
and whether the loop continues afterwards (`false` exactly when the `break`
of the replay branch ran). -/
def watchdogIteration (ctx : WatchdogCtx) (connectFails : Nat) :
    List WdAction × Bool :=
  if ctx.running && ctx.ioStopped then
    if replayMode ctx then
      ([.sleepOneSecond, .logInfoFinishedFile], false)
    else
      (.sleepOneSecond :: .logErrorConnectionLost :: .ioServiceReset ::
         .joinIoThread :: (reconnectLoop connectFails ++ [.receiveRestart]),
       true)
  else if ctx.running && ctx.isTcp then
    ([.sleepOneSecond, .logDebugPing, .pingTcp], true)
  else
    ([.sleepOneSecond], true)

/-- A machine accumulating text on the Unknown path: the
`readStringElements` read outstanding with the format still `UNKNOWN`. -/
def unknownAccum (m : Machine) : Prop :=
  m.fstate = .stringElems ∧ m.telegram.ttype = .UNKNOWN

/-- Inductive invariant of the framing machine: at a fresh framing attempt
(`readSync<0>` outstanding) the timestamp is unassigned, and on the Unknown
text path the timestamp stays unassigned. -/
def Inv (m : Machine) : Prop :=
  (m.fstate = .sync 0 → m.telegram.stamp = none) ∧
  (unknownAccum m → m.telegram.stamp = none)

/-- C1: the claim says an SBF header completing with the exact byte count
but a declared length above `MAX_SBF_SIZE` is logged and resynchronized,
leaving a new read outstanding. Evaluating the handler at such a header
(declared length 5000) shows the source logs the fault but schedules no
further read and does not resynchronize: the machine is left with no
outstanding read (`idle`), still holding the oversized telegram. -/
theorem c1_oversized_sbf_header_stalls_read_path :
    step (fun _ => true)
      { fstate := .sbfHeader,
        telegram := { message := [0x24, 0x40, 0, 0, 0, 0, 0, 0],
                      ttype := .SBF, stamp := some 5 } }
      ⟨false, 6, [0, 0, 0, 0, 0x88, 0x13], 7⟩ =
      ({ fstate := .idle,
         telegram := { message := [0x24, 0x40, 0, 0, 0, 0, 0x88, 0x13],
                       ttype := .SBF, stamp := some 5 } },
       ⟨[], [(.DEBUG, .sbfHeaderTooLong 5000)]⟩) := by
  rfl

/-- C2 counterexample: the claim says the connection-descriptor footer byte
terminates only a telegram whose format is still Unknown. Feeding the
concrete stream `$R:A>` — a confirmed Response accumulating text — shows
the footer byte does terminate and reclassify it: the telegram is pushed
retagged `CONNECTION_DESCRIPTOR` and the machine resynchronizes. -/
theorem c2_footer_fires_on_confirmed_response :
    run (fun _ => true) resyncM
      [⟨false, 1, [0x24], 5⟩, ⟨false, 1, [0x52], 5⟩, ⟨false, 1, [0x3A], 5⟩,
       ⟨false, 1, [0x41], 5⟩, ⟨false, 1, [0x3E], 5⟩] =
      (resyncM,
       [{ message := [0x24, 0x52, 0x3A, 0x41, 0x3E],
          ttype := .CONNECTION_DESCRIPTOR, stamp := some 5 }],
       []) := by
  rfl

/-- C2 amended: during text accumulation the connection-descriptor footer
byte terminates the telegram unconditionally — whatever the current format
(Unknown or a confirmed text format) — retagging it to
`CONNECTION_DESCRIPTOR`, pushing it to the queue, and resynchronizing. -/
theorem c2_footer_always_terminates (crcValid : List Nat → Bool)
    (m : Machine) (ev : ReadEvent) (hs : m.fstate = .stringElems)
    (he : ev.err = false) (hn : ev.numBytes = 1)
    (hb : ev.bytes.getD 0 0 = CONNECTION_DESCRIPTOR_FOOTER) :
    step crcValid m ev =
      (resyncM,
       ⟨[{ m.telegram with
            message := m.telegram.message ++ [CONNECTION_DESCRIPTOR_FOOTER],
            ttype := .CONNECTION_DESCRIPTOR }], []⟩) := by
  simp only [step, hs, stepString, he, hn, hb, CONNECTION_DESCRIPTOR_FOOTER,
    SYNC_BYTE_1, LF]
  norm_num

/-- Witness for the amended C2 theorem at a concrete Response-accumulating
machine and footer event. -/
theorem c2_footer_always_terminates_witness :
    step (fun _ => true)
      { fstate := .stringElems,
        telegram := { message := [0x24, 0x52, 0x3A], ttype := .RESPONSE,
                      stamp := some 5 } }
      ⟨false, 1, [0x3E], 9⟩ =
      (resyncM,
       ⟨[{ message := [0x24, 0x52, 0x3A, 0x3E],
           ttype := .CONNECTION_DESCRIPTOR, stamp := some 5 }], []⟩) :=
  c2_footer_always_terminates (fun _ => true)
    { fstate := .stringElems,
      telegram := { message := [0x24, 0x52, 0x3A], ttype := .RESPONSE,
                    stamp := some 5 } }
    ⟨false, 1, [0x3E], 9⟩ rfl rfl rfl rfl

/-- C9: `send` rejects an empty payload with a logged error and posts
nothing; a non-empty payload is enqueued as one asynchronous write of
exactly the payload's bytes, and the returned trace contains no completion
the caller could block on. -/
theorem c9_send_contract (cmd : List Nat) :
    (cmd = [] → send cmd = [.logEmptyError]) ∧
    (∀ c, SendAction.postWrite c ∈ send cmd → cmd ≠ [] ∧ c = cmd) ∧
    (cmd ≠ [] → send cmd = [.postWrite cmd]) := by
  refine ⟨fun h => ?_, fun c hc => ?_, fun h => ?_⟩
  · subst h; rfl
  · unfold send at hc
    split at hc
    · simp at hc
    · rename_i hne
      simp at hc
      exact ⟨fun h => by simp [h] at hne, hc⟩
  · unfold send
    simp [List.length_eq_zero.not.mpr h]

/-- Witness for C9 at the concrete payloads `[]` and `[0x31]`. -/
theorem c9_send_contract_witness :
    send ([] : List Nat) = [.logEmptyError] ∧ send [0x31] = [.postWrite [0x31]] :=
  ⟨(c9_send_contract []).1 rfl, (c9_send_contract [0x31]).2.2 (by simp)⟩

/-- C4: when the SBF body read completes without transport error, the
telegram is pushed exactly when the declared remaining byte count was read
and the CRC over the buffer passes; on CRC failure the fault is logged with
the decoded block identifier and nothing is pushed; and in every such
completion the machine resynchronizes, never keeping the buffer. -/
theorem c4_sbf_body_delivery (crcValid : List Nat → Bool) (m : Machine)
    (ev : ReadEvent) (len : Nat) (hs : m.fstate = .sbfBody len)
    (he : ev.err = false) :
    ((step crcValid m ev).2.pushes ≠ [] ↔
       ev.numBytes = sbfBodyExpected len ∧
       crcValid (writeBytes m.telegram.message SBF_HEADER_SIZE
         (ev.bytes.take ev.numBytes)) = true) ∧
    (ev.numBytes = sbfBodyExpected len →
       crcValid (writeBytes m.telegram.message SBF_HEADER_SIZE
         (ev.bytes.take ev.numBytes)) = true →
       (step crcValid m ev).2.pushes =
         [{ m.telegram with
             message := writeBytes m.telegram.message SBF_HEADER_SIZE
               (ev.bytes.take ev.numBytes) }]) ∧
    (ev.numBytes = sbfBodyExpected len →
       crcValid (writeBytes m.telegram.message SBF_HEADER_SIZE
         (ev.bytes.take ev.numBytes)) = false →
       (step crcValid m ev).2.pushes = [] ∧
       (step crcValid m ev).2.logs =
         [(.DEBUG, .sbfCrcFailed (getId (writeBytes m.telegram.message
             SBF_HEADER_SIZE (ev.bytes.take ev.numBytes))))]) ∧
    (step crcValid m ev).1 = resyncM := by
  obtain ⟨fs, tel⟩ := m
  simp only at hs
  subst hs
  simp only [step, stepSbfBody, he, Bool.false_eq_true, if_false]
  by_cases hnb : ev.numBytes = sbfBodyExpected len
  · cases hcrc : crcValid (writeBytes tel.message SBF_HEADER_SIZE
        (ev.bytes.take ev.numBytes)) <;>
      simp [hnb, hcrc]
  · simp [hnb]

/-- Witness for C4: a body read of a 16-byte block completing with the 8
remaining bytes and a passing CRC pushes the assembled telegram. -/
theorem c4_sbf_body_delivery_witness :
    (step (fun _ => true)
      { fstate := .sbfBody 16,
        telegram := { message := List.replicate 16 0, ttype := .SBF,
                      stamp := some 5 } }
      ⟨false, 8, [1, 2, 3, 4, 5, 6, 7, 8], 7⟩).2.pushes =
      [{ message := [0, 0, 0, 0, 0, 0, 0, 0, 1, 2, 3, 4, 5, 6, 7, 8],
         ttype := .SBF, stamp := some 5 }] :=
  (c4_sbf_body_delivery (fun _ => true)
    { fstate := .sbfBody 16,
      telegram := { message := List.replicate 16 0, ttype := .SBF,
                    stamp := some 5 } }
    ⟨false, 8, [1, 2, 3, 4, 5, 6, 7, 8], 7⟩ 16 rfl rfl).2.1 (by decide) rfl

/-- C5: during text accumulation a line-feed byte delivers the telegram
exactly when the immediately preceding accumulated byte was a
carriage-return; with CR the telegram is pushed verbatim including the CR
and LF bytes, without CR a malformed-line fault is logged and nothing is
pushed; either way the machine resynchronizes. -/
theorem c5_lf_terminator (crcValid : List Nat → Bool) (m : Machine)
    (ev : ReadEvent) (hs : m.fstate = .stringElems) (he : ev.err = false)
    (hn : ev.numBytes = 1) (hb : ev.bytes.getD 0 0 = LF) :
    ((step crcValid m ev).2.pushes ≠ [] ↔
       (m.telegram.message ++ [LF]).getD
         ((m.telegram.message ++ [LF]).length - 2) 0 = CR) ∧
    ((m.telegram.message ++ [LF]).getD
        ((m.telegram.message ++ [LF]).length - 2) 0 = CR →
       (step crcValid m ev).2.pushes =
         [{ m.telegram with message := m.telegram.message ++ [LF] }]) ∧
    ((m.telegram.message ++ [LF]).getD
        ((m.telegram.message ++ [LF]).length - 2) 0 ≠ CR →
       (step crcValid m ev).2.pushes = [] ∧
       (step crcValid m ev).2.logs =
         [(.DEBUG, .lfWithoutCr (m.telegram.message ++ [LF]))]) ∧
    (step crcValid m ev).1 = resyncM := by
  obtain ⟨fs, tel⟩ := m
  simp only at hs
  subst hs
  simp only [step, stepString, he, Bool.false_eq_true, if_false, hn, hb,
    if_true]
  have h1 : LF ≠ SYNC_BYTE_1 := by decide
  by_cases hcr : ((tel.message ++ [LF])[tel.message.length - 1]?).getD 0 = CR <;>
    simp [h1, hcr]

/-- Witness for C5 at a concrete accumulation ending in CR: the line
`$R: OK` followed by CR and LF is pushed verbatim. -/
theorem c5_lf_terminator_witness :
    (step (fun _ => true)
      { fstate := .stringElems,
        telegram := { message := [0x24, 0x52, 0x3A, 0x0D], ttype := .RESPONSE,
                      stamp := some 5 } }
      ⟨false, 1, [0x0A], 9⟩).2.pushes =
      [{ message := [0x24, 0x52, 0x3A, 0x0D, 0x0A], ttype := .RESPONSE,
         stamp := some 5 }] :=
  (c5_lf_terminator (fun _ => true)
    { fstate := .stringElems,
      telegram := { message := [0x24, 0x52, 0x3A, 0x0D], ttype := .RESPONSE,
                    stamp := some 5 } }
    ⟨false, 1, [0x0A], 9⟩ rfl rfl rfl rfl).2.1 (by decide)

/-- C6: during text accumulation, reading sync-byte-1 abandons the
in-progress telegram without pushing it and starts a brand-new telegram
whose first byte is the sync byte, with a freshly taken timestamp,
continuing at the expect-second-sync-byte state. -/
theorem c6_midstream_resync (crcValid : List Nat → Bool) (m : Machine)
    (ev : ReadEvent) (hs : m.fstate = .stringElems) (he : ev.err = false)
    (hn : ev.numBytes = 1) (hb : ev.bytes.getD 0 0 = SYNC_BYTE_1) :
    (step crcValid m ev).2.pushes = [] ∧
    (step crcValid m ev).1 =
      { fstate := .sync 1,
        telegram := { message := [SYNC_BYTE_1, 0, 0], ttype := .EMPTY,
                      stamp := some ev.now } } := by
  obtain ⟨fs, tel⟩ := m
  simp only at hs
  subst hs
  simp only [step, stepString, he, Bool.false_eq_true, if_false, hn, hb]
  simp [Telegram.fresh]

/-- Witness for C6: sync-byte-1 arriving while `AB` is accumulating starts a
fresh telegram stamped with the event time. -/
theorem c6_midstream_resync_witness :
    (step (fun _ => true)
      { fstate := .stringElems,
        telegram := { message := [0x41, 0x42], ttype := .UNKNOWN,
                      stamp := none } }
      ⟨false, 1, [0x24], 11⟩).1 =
      { fstate := .sync 1,
        telegram := { message := [0x24, 0, 0], ttype := .EMPTY,
                      stamp := some 11 } } :=
  (c6_midstream_resync (fun _ => true)
    { fstate := .stringElems,
      telegram := { message := [0x41, 0x42], ttype := .UNKNOWN,
                    stamp := none } }
    ⟨false, 1, [0x24], 11⟩ rfl rfl rfl rfl).2

/-- Shape of the watchdog's reconnect loop: each failed connect attempt is
followed by a 1-second sleep, and the loop ends at the first success. -/
theorem reconnectLoop_shape (n : Nat) :
    reconnectLoop n =
      (List.replicate n [WdAction.connectAttempt false,
        WdAction.sleepOneSecond]).flatten ++ [WdAction.connectAttempt true] := by
  induction n with
  | zero => rfl
  | succ k ih => simp [reconnectLoop, List.replicate_succ, ih]

/-- C8: a watchdog iteration that observes the I/O-processing task stopped
while running either — in file-replay mode — logs informationally and stops
the loop with no connect attempt, or — otherwise — logs an error, resets
the I/O service, rejoins the dead thread, retries connect with 1-second
sleeps after each failure until one succeeds, and restarts the pipeline. -/
theorem c8_watchdog_recovery (ctx : WatchdogCtx) (fails : Nat)
    (hr : ctx.running = true) (hs : ctx.ioStopped = true) :
    (replayMode ctx = true →
       watchdogIteration ctx fails =
         ([.sleepOneSecond, .logInfoFinishedFile], false) ∧
       ∀ b, WdAction.connectAttempt b ∉ (watchdogIteration ctx fails).1) ∧
    (replayMode ctx = false →
       watchdogIteration ctx fails =
         (.sleepOneSecond :: .logErrorConnectionLost :: .ioServiceReset ::
            .joinIoThread ::
            ((List.replicate fails [WdAction.connectAttempt false,
               WdAction.sleepOneSecond]).flatten ++
              [WdAction.connectAttempt true] ++ [.receiveRestart]),
          true)) := by
  constructor
  · intro hrep
    have he : watchdogIteration ctx fails =
        ([.sleepOneSecond, .logInfoFinishedFile], false) := by
      simp [watchdogIteration, hr, hs, hrep]
    refine ⟨he, fun b => ?_⟩
    rw [he]
    simp
  · intro hrep
    simp [watchdogIteration, hr, hs, hrep, reconnectLoop_shape]

/-- Witness for C8: replay mode stops the loop; live mode with two failed
reconnect attempts performs the full recovery sequence. -/
theorem c8_watchdog_recovery_witness :
    watchdogIteration ⟨true, true, true, false, false⟩ 0 =
      ([.sleepOneSecond, .logInfoFinishedFile], false) ∧
    watchdogIteration ⟨true, true, false, false, true⟩ 2 =
      ([.sleepOneSecond, .logErrorConnectionLost, .ioServiceReset,
        .joinIoThread, .connectAttempt false, .sleepOneSecond,
        .connectAttempt false, .sleepOneSecond, .connectAttempt true,
        .receiveRestart], true) := by
  constructor
  · exact ((c8_watchdog_recovery ⟨true, true, true, false, false⟩ 0 rfl rfl).1
      rfl).1
  · have h := (c8_watchdog_recovery ⟨true, true, false, false, true⟩ 2 rfl
      rfl).2 rfl
    rw [h]
    rfl

/-- C3 counterexample: the claim says every Sync2 byte that does not
confirm the current provisional format resynchronizes (discard and restart
at Sync0). Feeding `$G` and then sync-byte-1 — which is not the Text
format's confirming third byte — leaves the machine at the
expect-second-sync-byte state with the same telegram (format still NMEA,
timestamp refreshed), not at a fresh Sync0 state. -/
theorem c3_sync1_at_sync2_escapes_resync :
    (run (fun _ => true) resyncM
      [⟨false, 1, [0x24], 5⟩, ⟨false, 1, [0x47], 5⟩,
       ⟨false, 1, [0x24], 9⟩]).1 =
      { fstate := .sync 1,
        telegram := { message := [0x24, 0x47, 0x24], ttype := .NMEA,
                      stamp := some 9 } } ∧
    (run (fun _ => true) resyncM
      [⟨false, 1, [0x24], 5⟩, ⟨false, 1, [0x47], 5⟩,
       ⟨false, 1, [0x24], 9⟩]).1 ≠ resyncM := by
  constructor
  · rfl
  · decide

/-- C3 amended: in the Sync2 state with a provisional text-like format,
sync-byte-1 restarts at the expect-second-sync-byte state with a refreshed
timestamp and the format kept; any other byte proceeds to text
accumulation exactly when it confirms the current provisional format (a
Response also accepting the error third byte, which reclassifies to
ErrorResponse), and resynchronizes otherwise; no byte pushes anything. -/
theorem c3_sync2_amended (crcValid : List Nat → Bool) (m : Machine)
    (ev : ReadEvent) (hs : m.fstate = .sync 2)
    (ht : m.telegram.ttype = .NMEA ∨ m.telegram.ttype = .NMEA_INS ∨
      m.telegram.ttype = .RESPONSE)
    (he : ev.err = false) (hn : ev.numBytes = 1) :
    (step crcValid m ev).2.pushes = [] ∧
    (ev.bytes.getD 0 0 = SYNC_BYTE_1 →
       (step crcValid m ev).1.fstate = .sync 1 ∧
       (step crcValid m ev).1.telegram.stamp = some ev.now ∧
       (step crcValid m ev).1.telegram.ttype = m.telegram.ttype) ∧
    (ev.bytes.getD 0 0 ≠ SYNC_BYTE_1 →
       confirms3 m.telegram.ttype (ev.bytes.getD 0 0) = true →
       (step crcValid m ev).1.fstate = .stringElems ∧
       (ev.bytes.getD 0 0 = ERROR_SYNC_BYTE_3 →
          (step crcValid m ev).1.telegram.ttype = .ERROR_RESPONSE) ∧
       (ev.bytes.getD 0 0 ≠ ERROR_SYNC_BYTE_3 →
          (step crcValid m ev).1.telegram.ttype = m.telegram.ttype)) ∧
    (ev.bytes.getD 0 0 ≠ SYNC_BYTE_1 →
       confirms3 m.telegram.ttype (ev.bytes.getD 0 0) = false →
       (step crcValid m ev).1 = resyncM) := by
  obtain ⟨fs, tel⟩ := m
  simp only at hs ht
  subst hs
  rcases ht with ht | ht | ht <;>
    (simp only [step, stepSync, he, Bool.false_eq_true, if_false, hn, ht];
     by_cases h1 : ev.bytes.getD 0 0 = SYNC_BYTE_1 <;>
     by_cases h2 : ev.bytes.getD 0 0 = NMEA_SYNC_BYTE_3 <;>
     by_cases h3 : ev.bytes.getD 0 0 = NMEA_INS_SYNC_BYTE_3 <;>
     by_cases h4 : ev.bytes.getD 0 0 = RESPONSE_SYNC_BYTE_3 <;>
     by_cases h5 : ev.bytes.getD 0 0 = RESPONSE_SYNC_BYTE_3a <;>
     by_cases h6 : ev.bytes.getD 0 0 = ERROR_SYNC_BYTE_3 <;>
     simp_all [confirms3, SYNC_BYTE_1, NMEA_SYNC_BYTE_3, NMEA_INS_SYNC_BYTE_3,
       RESPONSE_SYNC_BYTE_3, RESPONSE_SYNC_BYTE_3a, ERROR_SYNC_BYTE_3])

/-- Witness for the amended C3 theorem: a provisional Response receiving
the error third byte enters text accumulation reclassified as
ErrorResponse. -/
theorem c3_sync2_amended_witness :
    (step (fun _ => true)
      { fstate := .sync 2,
        telegram := { message := [0x24, 0x52, 0], ttype := .RESPONSE,
                      stamp := some 5 } }
      ⟨false, 1, [0x3F], 6⟩).1.fstate = .stringElems ∧
    (step (fun _ => true)
      { fstate := .sync 2,
        telegram := { message := [0x24, 0x52, 0], ttype := .RESPONSE,
                      stamp := some 5 } }
      ⟨false, 1, [0x3F], 6⟩).1.telegram.ttype = .ERROR_RESPONSE := by
  have h := (c3_sync2_amended (fun _ => true)
    { fstate := .sync 2,
      telegram := { message := [0x24, 0x52, 0], ttype := .RESPONSE,
                    stamp := some 5 } }
    ⟨false, 1, [0x3F], 6⟩ rfl (by simp) rfl rfl).2.2.1 (by decide) (by decide)
  exact ⟨h.1, h.2.1 rfl⟩

/-- Helper: no branch of `readSync<i>`'s handler starts a body read. -/
theorem stepSync_no_sbfBody (i : Nat) (m : Machine) (ev : ReadEvent)
    (len : Nat) : (stepSync i m ev).1.fstate ≠ FState.sbfBody len := by
  unfold stepSync
  repeat' ((try dsimp only); split)
  all_goals simp [resyncM]

/-- Helper: no branch of `readStringElements`'s handler starts a body
read. -/
theorem stepString_no_sbfBody (m : Machine) (ev : ReadEvent) (len : Nat) :
    (stepString m ev).1.fstate ≠ FState.sbfBody len := by
  unfold stepString
  repeat' ((try dsimp only); split)
  all_goals simp [resyncM]

/-- Helper: every completion of the body read resynchronizes the machine. -/
theorem stepSbfBody_resync (crcValid : List Nat → Bool) (l : Nat)
    (m : Machine) (ev : ReadEvent) :
    (stepSbfBody crcValid l m ev).1 = resyncM := by
  dsimp only [stepSbfBody]
  split_ifs <;> rfl

/-- C7: the body-read state is entered only from a header completion
without error, with the exact header byte count, whose decoded length is at
most `MAX_SBF_SIZE` — so a header declaring an oversized length causes zero
body reads. -/
theorem c7_body_read_needs_bounded_length (crcValid : List Nat → Bool)
    (m : Machine) (ev : ReadEvent) (len : Nat)
    (h : (step crcValid m ev).1.fstate = .sbfBody len) :
    m.fstate = .sbfHeader ∧ ev.err = false ∧
    ev.numBytes = SBF_HEADER_SIZE - 2 ∧
    len = getLength (writeBytes m.telegram.message 2
      (ev.bytes.take (SBF_HEADER_SIZE - 2))) ∧
    len ≤ MAX_SBF_SIZE := by
  obtain ⟨fs, tel⟩ := m
  cases fs with
  | sync i => exact absurd h (by simpa [step] using stepSync_no_sbfBody i ⟨.sync i, tel⟩ ev len)
  | stringElems => exact absurd h (by simpa [step] using stepString_no_sbfBody ⟨.stringElems, tel⟩ ev len)
  | sbfBody l =>
      rw [show step crcValid ⟨.sbfBody l, tel⟩ ev =
        stepSbfBody crcValid l ⟨.sbfBody l, tel⟩ ev from rfl,
        stepSbfBody_resync] at h
      exact absurd h (by simp [resyncM])
  | idle => exact absurd h (by simp [step])
  | sbfHeader =>
      simp only [step, stepSbfHeader] at h
      split at h
      · exact absurd h (by simp [resyncM])
      · split at h
        · split at h
          · exact absurd h (by simp)
          · rename_i herr hnum hlen
            injection h with hinj
            refine ⟨rfl, by simpa using herr, hnum, hinj.symm, ?_⟩
            omega
        · exact absurd h (by simp [resyncM])

/-- Witness for C7 at a concrete in-bound header: declared length 16 enters
the body-read state and satisfies the bound. -/
theorem c7_body_read_needs_bounded_length_witness :
    (⟨.sbfHeader, ⟨[0x24, 0x40, 0, 0, 0, 0, 0, 0], .SBF, some 5⟩⟩ :
        Machine).fstate = .sbfHeader ∧
    (⟨false, 6, [0, 0, 16, 0, 16, 0], 7⟩ : ReadEvent).err = false ∧
    (⟨false, 6, [0, 0, 16, 0, 16, 0], 7⟩ : ReadEvent).numBytes =
      SBF_HEADER_SIZE - 2 ∧
    16 = getLength (writeBytes
      (⟨.sbfHeader, ⟨[0x24, 0x40, 0, 0, 0, 0, 0, 0], .SBF, some 5⟩⟩ :
          Machine).telegram.message 2
      ((⟨false, 6, [0, 0, 16, 0, 16, 0], 7⟩ : ReadEvent).bytes.take
        (SBF_HEADER_SIZE - 2))) ∧
    16 ≤ MAX_SBF_SIZE :=
  c7_body_read_needs_bounded_length (fun _ => true)
    ⟨.sbfHeader, ⟨[0x24, 0x40, 0, 0, 0, 0, 0, 0], .SBF, some 5⟩⟩
    ⟨false, 6, [0, 0, 16, 0, 16, 0], 7⟩ 16 (by decide)

/-- Helper: the resynchronized machine satisfies the timestamp invariant. -/
theorem inv_resync : Inv resyncM := by
  constructor <;> intro <;> rfl

/-- Helper: one step of the framing machine preserves the timestamp
invariant. -/
theorem inv_step (crcValid : List Nat → Bool) (m : Machine) (ev : ReadEvent)
    (hm : Inv m) : Inv (step crcValid m ev).1 := by
  obtain ⟨fs, tel⟩ := m
  obtain ⟨h0, hu⟩ := hm
  simp only [unknownAccum] at h0 hu
  cases fs with
  | sync i =>
      unfold step stepSync
      repeat' ((try dsimp only); split)
      all_goals simp_all [Inv, unknownAccum, resyncM, Telegram.fresh]
  | sbfHeader =>
      unfold step stepSbfHeader
      repeat' ((try dsimp only); split)
      all_goals simp_all [Inv, unknownAccum, resyncM, Telegram.fresh]
  | sbfBody l =>
      unfold step stepSbfBody
      repeat' ((try dsimp only); split)
      all_goals simp_all [Inv, unknownAccum, resyncM, Telegram.fresh]
  | stringElems =>
      unfold step stepString
      repeat' ((try dsimp only); split)
      all_goals simp_all [Inv, unknownAccum, resyncM, Telegram.fresh]
  | idle =>
      simp_all [step, Inv, unknownAccum]

/-- Helper: the timestamp invariant holds along every run from an
invariant-satisfying machine. -/
theorem inv_run (crcValid : List Nat → Bool) (m : Machine)
    (evs : List ReadEvent) (hm : Inv m) : Inv (run crcValid m evs).1 := by
  induction evs generalizing m with
  | nil => simpa [run] using hm
  | cons ev evs ih =>
      simp only [run]
      exact ih _ (inv_step crcValid m ev hm)

/-- Helper: a step taken from an Unknown-path accumulation with an
unassigned timestamp pushes only telegrams with the default timestamp,
tagged `UNKNOWN` or retagged `CONNECTION_DESCRIPTOR`. -/
theorem push_from_unknown_accum (crcValid : List Nat → Bool) (m : Machine)
    (ev : ReadEvent) (hacc : unknownAccum m)
    (hstamp : m.telegram.stamp = none) :
    ∀ tel ∈ (step crcValid m ev).2.pushes,
      tel.stamp = none ∧
      (tel.ttype = TelegramType.UNKNOWN ∨
        tel.ttype = TelegramType.CONNECTION_DESCRIPTOR) := by
  obtain ⟨fs, tel0⟩ := m
  obtain ⟨h1, h2⟩ := hacc
  simp only at h1 h2 hstamp
  subst h1
  unfold step stepString
  repeat' ((try dsimp only); split)
  all_goals simp_all

/-- C10: on the Unknown text path (a framing attempt whose first byte was
not sync-byte-1) the capture timestamp is never assigned — along every run
from the initial machine an Unknown accumulation has the default timestamp,
and every telegram such a state pushes (on CR+LF or on the
connection-descriptor footer, then retagged) carries the default timestamp —
and such pushes do occur, as the two concrete runs show. -/
theorem c10_unknown_path_default_stamp :
    (∀ (crcValid : List Nat → Bool) (evs : List ReadEvent),
       unknownAccum (run crcValid resyncM evs).1 →
       (run crcValid resyncM evs).1.telegram.stamp = none) ∧
    (∀ (crcValid : List Nat → Bool) (m : Machine) (ev : ReadEvent),
       unknownAccum m → m.telegram.stamp = none →
       ∀ tel ∈ (step crcValid m ev).2.pushes,
         tel.stamp = none ∧
         (tel.ttype = TelegramType.UNKNOWN ∨
           tel.ttype = TelegramType.CONNECTION_DESCRIPTOR)) ∧
    (run (fun _ => true) resyncM
       [⟨false, 1, [0x58], 3⟩, ⟨false, 1, [0x3E], 4⟩]).2.1 =
      [{ message := [0x58, 0x3E], ttype := .CONNECTION_DESCRIPTOR,
         stamp := none }] ∧
    (run (fun _ => true) resyncM
       [⟨false, 1, [0x58], 3⟩, ⟨false, 1, [0x0D], 4⟩,
        ⟨false, 1, [0x0A], 5⟩]).2.1 =
      [{ message := [0x58, 0x0D, 0x0A], ttype := .UNKNOWN, stamp := none }] := by
  refine ⟨fun crcValid evs hacc => ?_, push_from_unknown_accum, rfl, rfl⟩
  exact (inv_run crcValid resyncM evs inv_resync).2 hacc

/-- Witness for C10: after the single non-sync byte `X` the machine is an
Unknown accumulation, and the theorem yields its default timestamp. -/
theorem c10_unknown_path_default_stamp_witness :
    unknownAccum (run (fun _ => true) resyncM [⟨false, 1, [0x58], 3⟩]).1 ∧
    (run (fun _ => true) resyncM
      [⟨false, 1, [0x58], 3⟩]).1.telegram.stamp = none :=
  ⟨⟨rfl, rfl⟩,
   c10_unknown_path_default_stamp.1 (fun _ => true)
     [⟨false, 1, [0x58], 3⟩] ⟨rfl, rfl⟩⟩

end Sep
